import Mathlib

/-!
Verification of the PromptTool frontend (`src/src/index.ts`) against its
natural-language specification.

Strings from the TypeScript code are embedded as `List Char`; JavaScript
`toLowerCase`, `trim`, `includes` and `startsWith` are modelled character-wise
(the inputs of interest are ASCII).  The `PromptManager` instance state that
the claims touch (the loaded prompts, the filtered prompts, the search input
value, the clipboard, and the `classList` of the result list) is modelled as
an explicit record, and each relevant event handler becomes a function on
that record.
-/

namespace PromptTool

/-- The `Prompt` interface of `index.ts`. -/
structure Prompt where
  name : List Char
  content : List Char
  parameters : List (List Char)
  deriving DecidableEq, Repr

/-- The `Settings` interface of `index.ts`. -/
structure Settings where
  promptFilePath : List Char
  hotkey : List Char
  deriving DecidableEq, Repr

/-- JavaScript `String.prototype.toLowerCase`, character-wise (ASCII). -/
def lowerStr (s : List Char) : List Char :=
  s.map Char.toLower

/-- JavaScript whitespace recognised by `String.prototype.trim`. -/
def isJsWhitespace (c : Char) : Bool :=
  c = ' ' || c = '\t' || c = '\n' || c = '\r'

/-- JavaScript `String.prototype.trim`: strip leading and trailing whitespace. -/
def trimStr (s : List Char) : List Char :=
  ((s.dropWhile isJsWhitespace).reverse.dropWhile isJsWhitespace).reverse

/-- Does `hay` start with `needle`?  (JavaScript `startsWith`.) -/
def startsWith : List Char → List Char → Bool
  | _, [] => true
  | [], _ :: _ => false
  | a :: as, b :: bs => a = b && startsWith as bs

/-- JavaScript `hay.includes(needle)`: substring containment. -/
def strIncludes : List Char → List Char → Bool
  | hay, needle =>
    match hay with
    | [] => needle.isEmpty
    | _ :: t => startsWith hay needle || strIncludes t needle

/-- The filter predicate applied to each prompt inside
`PromptManager.filterPrompts`: the lowercased query is a substring of the
lowercased name or of the lowercased content. -/
def promptMatches (searchTerm : List Char) (p : Prompt) : Bool :=
  strIncludes (lowerStr p.name) searchTerm || strIncludes (lowerStr p.content) searchTerm

/-- `PromptManager.filterPrompts` (`index.ts` lines 179-186): lowercase the
query and keep the prompts whose lowercased name or content contains it. -/
def filterPrompts (prompts : List Prompt) (query : List Char) : List Prompt :=
  let searchTerm := lowerStr query
  prompts.filter (fun p => promptMatches searchTerm p)

/-! ## UI state and event handlers -/

/-- The CSS class used by `index.ts` to hide the prompt list and the modal. -/
def hiddenClass : String := "hidden"

/-- `element.classList.add(c)`: a set-like insert, a no-op when the class is
already present. -/
def classListAdd (c : String) (l : List String) : List String :=
  if c ∈ l then l else l ++ [c]

/-- `element.classList.remove(c)`: drop every occurrence of the class. -/
def classListRemove (c : String) (l : List String) : List String :=
  l.filter (fun x => x ≠ c)

/-- The slice of `PromptManager` instance state (plus the DOM and clipboard
state it drives) that the verified handlers read and write. -/
structure UIState where
  prompts : List Prompt
  filteredPrompts : List Prompt
  searchValue : List Char
  clipboard : List Char
  listClasses : List String
  deriving DecidableEq, Repr

/-- The `input` handler on the search bar (`index.ts` lines 87-95): trim the
current value; a non-empty query filters prompts and unhides the list, an
empty one hides the list and touches nothing else. -/
def handleSearchInput (st : UIState) (raw : List Char) : UIState :=
  let st := { st with searchValue := raw }
  let query := trimStr raw
  if query ≠ [] then
    { st with filteredPrompts := filterPrompts st.prompts query,
              listClasses := classListRemove hiddenClass st.listClasses }
  else
    { st with listClasses := classListAdd hiddenClass st.listClasses }

/-- The prompts the user can see: the filtered prompts, unless the list
carries the `hidden` class. -/
def visibleResults (st : UIState) : List Prompt :=
  if hiddenClass ∈ st.listClasses then [] else st.filteredPrompts

/-- Hiding the prompt list, as every hide path in `index.ts` does it:
`promptList.classList.add("hidden")`. -/
def hideList (st : UIState) : UIState :=
  { st with listClasses := classListAdd hiddenClass st.listClasses }

/-- The per-item `click` handler installed by
`PromptManager.renderPromptList` (`index.ts` lines 199-208): write the
prompt's content to the clipboard, clear the search bar, hide the list. -/
def selectPrompt (st : UIState) (p : Prompt) : UIState :=
  { st with clipboard := p.content,
            searchValue := [],
            listClasses := classListAdd hiddenClass st.listClasses }

/-! ## The document-level click handler -/

/-- The facts about a `click` event that the document-level handler in the
`PromptManager` constructor (`index.ts` lines 52-73) inspects. -/
structure ClickEnv where
  appExists : Bool
  targetInApp : Bool
  modalExists : Bool
  targetInModal : Bool
  modalHiddenClass : Bool
  searchFocused : Bool
  deriving DecidableEq, Repr

/-- Whether the document-level click handler invokes `minimize_window`:
first guard returns early when the click is outside both the app container
and a visible settings modal; otherwise minimize when the click is outside
the app container and the search bar is not focused. -/
def clickMinimizes (e : ClickEnv) : Bool :=
  if e.appExists && !e.targetInApp && e.modalExists && !e.targetInModal
      && !e.modalHiddenClass then
    false
  else
    e.appExists && !e.targetInApp && !e.searchFocused

/-! ## Reload and settings persistence -/

/-- The failures `get_prompts` can surface on a reload, per the spec's
failure policy (ParseError or IoError). -/
inductive PromptErr where
  | parseError
  | ioError
  deriving DecidableEq, Repr

/-- `PromptManager.loadPrompts` (`index.ts` lines 167-176): the result of one
reload round-trip, given the current prompt list and the outcome of the
`get_prompts` backend call.  On success the new list replaces the old; on
failure the catch block sets `this.prompts = []`. -/
def loadPrompts (current : List Prompt) (result : Except PromptErr (List Prompt)) :
    List Prompt :=
  match current, result with
  | _, .ok ps => ps
  | _, .error _ => []

/-- The backend calls `PromptManager.saveSettings` makes, in order. -/
inductive BackendCall where
  | setPromptFilePath
  | setHotkey
  deriving DecidableEq, Repr

/-- A backend rejection; `none` means the call succeeded. -/
inductive BackendErr where
  | pathErr
  | hotkeyErr
  deriving DecidableEq, Repr

/-- `PromptManager.saveSettings` (`index.ts` lines 151-164): await
`set_prompt_file_path`, then `set_hotkey`, then assign both in-memory
settings fields; any rejection is re-thrown and skips everything after it.
Returns the final settings, the re-thrown error (if any), and the ordered
log of backend calls issued. -/
def saveSettings (st : Settings) (newPath newHotkey : List Char)
    (pathResult hotkeyResult : Option BackendErr) :
    Settings × Option BackendErr × List BackendCall :=
  match pathResult with
  | some e => (st, some e, [.setPromptFilePath])
  | none =>
    match hotkeyResult with
    | some e => (st, some e, [.setPromptFilePath, .setHotkey])
    | none =>
      ({ promptFilePath := newPath, hotkey := newHotkey }, none,
        [.setPromptFilePath, .setHotkey])

/-! ## Spec-side definitions, for comparison with the code

These follow the wording of the specification (not the code) so that the
code's behaviour can be checked against them. -/

/-- Spec 4.3 tokenization, following the spec's words: split the lowercased
text into terms at whitespace. -/
def specTokensAux : List Char → List Char → List (List Char)
  | [], acc => if acc = [] then [] else [acc.reverse]
  | c :: rest, acc =>
    if isJsWhitespace c then
      if acc = [] then specTokensAux rest []
      else acc.reverse :: specTokensAux rest []
    else specTokensAux rest (c :: acc)

/-- The lowercase terms of a string, per the spec's tokenization. -/
def specTokens (s : List Char) : List (List Char) :=
  specTokensAux (lowerStr s) []

/-- Spec 4.3: a prompt's term set, built from its tokenized name and content. -/
def specTermSet (p : Prompt) : List (List Char) :=
  specTokens p.name ++ specTokens p.content

/-- Spec 4.3 matching policy, following the spec's words: the lowercased
query is a substring of the lowercased name OR lowercased content, OR every
tokenized query term appears in the prompt's term set. -/
def specMatch (query : List Char) (p : Prompt) : Bool :=
  strIncludes (lowerStr p.name) (lowerStr query)
    || strIncludes (lowerStr p.content) (lowerStr query)
    || (specTokens query).all (fun t => decide (t ∈ specTermSet p))

/-- Spec 4.3 ranking tier of a prompt for a query, following the spec's
words: 0 for an exact name-prefix match, 1 for a name-substring match,
2 for a content-substring/term match. -/
def specRank (query : List Char) (p : Prompt) : Nat :=
  if startsWith (lowerStr p.name) (lowerStr query) then 0
  else if strIncludes (lowerStr p.name) (lowerStr query) then 1
  else 2

/-- Whether a result list is ordered by nondecreasing spec rank for the
query, as the spec's ranking policy demands. -/
def rankOrdered (query : List Char) : List Prompt → Bool
  | [] => true
  | [_] => true
  | a :: b :: rest =>
    decide (specRank query a ≤ specRank query b) && rankOrdered query (b :: rest)

/-- The hide-trigger condition as the claim states it: the click target is
outside the main popup, outside any open settings dialog, and the search
field is not focused. -/
def claimHideCond (e : ClickEnv) : Bool :=
  !e.targetInApp
    && (!(e.modalExists && !e.modalHiddenClass) || !e.targetInModal)
    && !e.searchFocused

/-- The hide-trigger condition the code actually implements, stated as one
boolean formula: the app container exists, the target is outside it, the
search field is not focused, and it is not the case that the settings modal
exists, is visible, and the target is outside it. -/
def amendedHideCond (e : ClickEnv) : Bool :=
  e.appExists && !e.targetInApp && !e.searchFocused
    && !(e.modalExists && !e.targetInModal && !e.modalHiddenClass)

/-! ## The spec-modelled `set_hotkey` backend -/

/-- Result of the backend `set_hotkey` operation. -/
inductive SetHotkeyResult where
  | ok
  | invalidBinding
  | conflictWithReserved
  deriving DecidableEq, Repr

/-- Split a binding string at every `+`, keeping empty parts. -/
def splitPlusAux : List Char → List Char → List (List Char)
  | [], acc => [acc.reverse]
  | c :: rest, acc =>
    if c = '+' then acc.reverse :: splitPlusAux rest []
    else splitPlusAux rest (c :: acc)

/-- Modelled from the spec: the hotkey grammar of `setHotkey`, whose backend
implementation is not under `src/`.  A binding must parse into a non-empty
modifier+key combination: at least two `+`-separated parts, all non-empty
(so the empty string does not parse). -/
def parseHotkey (binding : List Char) : Option (List (List Char)) :=
  let parts := splitPlusAux binding []
  if 2 ≤ parts.length && parts.all (fun part => !part.isEmpty) then some parts
  else none

/-- Modelled from the spec: the small reserved set of combinations a hotkey
may not collide with. -/
def reservedBindings : List (List Char) :=
  ["Ctrl+C".toList, "Ctrl+V".toList]

/-- Modelled from the spec: the backend `set_hotkey` operation (not under
`src/`): parse and validate the combination before persisting; on any
rejection the settings are left unchanged. -/
def setHotkey (st : Settings) (binding : List Char) : Settings × SetHotkeyResult :=
  match parseHotkey binding with
  | none => (st, .invalidBinding)
  | some _ =>
    if binding ∈ reservedBindings then (st, .conflictWithReserved)
    else ({ st with hotkey := binding }, .ok)

/-! ## Concrete data used by examples and counterexamples -/

/-- The first prompt of the spec's example snapshot. -/
def greetingPrompt : Prompt :=
  { name := "Greeting".toList, content := "Hello {name}".toList, parameters := [] }

/-- The second prompt of the spec's example snapshot. -/
def bugReportPrompt : Prompt :=
  { name := "Bug Report".toList, content := "Steps to reproduce: ...".toList,
    parameters := [] }

/-- The spec's example snapshot. -/
def exampleSnapshot : List Prompt := [greetingPrompt, bugReportPrompt]

/-- A prompt that matches the query `"alpha bravo"` through the spec's
term-set branch only: both query terms are in its term set, but the query is
a substring of neither its name nor its content. -/
def termOnlyPrompt : Prompt :=
  { name := "bravo alpha".toList, content := "x".toList, parameters := [] }

/-- A prompt matching the query `"ab"` only through its content. -/
def contentMatchPrompt : Prompt :=
  { name := "xa".toList, content := "ab".toList, parameters := [] }

/-- A prompt whose name starts with the query `"ab"`. -/
def namePrefixPrompt : Prompt :=
  { name := "ab".toList, content := "zz".toList, parameters := [] }

/-- A state whose result list already carries the `hidden` class. -/
def hiddenOnlyState : UIState :=
  { prompts := [], filteredPrompts := [], searchValue := [],
    clipboard := [], listClasses := [hiddenClass] }

/-- A state whose visible result list contains exactly `greetingPrompt`. -/
def selectionState : UIState :=
  { prompts := [greetingPrompt], filteredPrompts := [greetingPrompt],
    searchValue := "hel".toList, clipboard := [], listClasses := [] }

/-- A click outside the app container and outside the open settings modal,
with the search bar unfocused. -/
def outsideBothClick : ClickEnv :=
  { appExists := true, targetInApp := false, modalExists := true,
    targetInModal := false, modalHiddenClass := false, searchFocused := false }

/-! ## Shared lemmas -/

/-- Adding a class makes it a member of the class list. -/
theorem mem_classListAdd_self (c : String) (l : List String) :
    c ∈ classListAdd c l := by
  unfold classListAdd
  by_cases h : c ∈ l
  · simp [h]
  · simp [h]

/-- Adding a class twice is the same as adding it once. -/
theorem classListAdd_idem (c : String) (l : List String) :
    classListAdd c (classListAdd c l) = classListAdd c l := by
  unfold classListAdd
  by_cases h : c ∈ l
  · simp [h]
  · simp [h]

/-- Spec 4.3's substring branch of the matching policy, following the spec's
words: the lowercased query is a substring of the lowercased name or of the
lowercased content. -/
def specSubstrMatch (query : List Char) (p : Prompt) : Bool :=
  strIncludes (lowerStr p.name) (lowerStr query)
    || strIncludes (lowerStr p.content) (lowerStr query)

/-! ## Claims -/

/-- Claim C1, counterexample: on a one-prompt snapshot, the query
`"alpha bravo"` satisfies the claimed matching policy at `termOnlyPrompt`
(through the term-set branch), yet `filterPrompts` returns the empty list:
the result is not exactly the set of prompts satisfying the policy. -/
theorem C1_counterexample :
    specMatch ("alpha bravo".toList) termOnlyPrompt = true ∧
      filterPrompts [termOnlyPrompt] ("alpha bravo".toList) = [] := by
  constructor <;> decide

/-- Claim C1, amended: for every snapshot and non-empty query,
`filterPrompts` returns exactly those prompts of the snapshot for which the
lowercased query is a substring of the lowercased name or of the lowercased
content (the term-set branch of the spec's policy is not implemented); in
particular the result is a subset of the snapshot. -/
theorem filterPrompts_exact_substring (prompts : List Prompt) (q : List Char)
    (_hq : q ≠ []) :
    (∀ p, p ∈ filterPrompts prompts q ↔ p ∈ prompts ∧ specSubstrMatch q p = true) ∧
      filterPrompts prompts q ⊆ prompts := by
  constructor
  · intro p
    simp [filterPrompts, List.mem_filter, promptMatches, specSubstrMatch]
  · intro p hp
    exact (List.mem_filter.mp hp).1

/-- Claim C1, witness: the amended theorem applied to the spec's example
snapshot and the non-empty query `"hel"`. -/
theorem filterPrompts_exact_substring_witness :
    greetingPrompt ∈ filterPrompts exampleSnapshot ("hel".toList) ↔
      greetingPrompt ∈ exampleSnapshot ∧
        specSubstrMatch ("hel".toList) greetingPrompt = true :=
  (filterPrompts_exact_substring exampleSnapshot ("hel".toList)
    (by decide)).1 greetingPrompt

/-- Claim C2: on input of the empty string, the search handler shows no
results (the list carries the `hidden` class, so the visible results are
empty) and produces no new filtered prompts. -/
theorem empty_query_yields_nothing (st : UIState) :
    visibleResults (handleSearchInput st []) = [] ∧
      (handleSearchInput st []).filteredPrompts = st.filteredPrompts := by
  have hmem := mem_classListAdd_self hiddenClass st.listClasses
  constructor
  · simp [handleSearchInput, trimStr, visibleResults, hmem]
  · simp [handleSearchInput, trimStr]

/-- Claim C3, counterexample: for the snapshot
`[contentMatchPrompt, namePrefixPrompt]` and the query `"ab"`, both prompts
are returned but the exact name-prefix match comes second, after a mere
content match: the results are not ordered by the spec's ranking. -/
theorem C3_counterexample :
    filterPrompts [contentMatchPrompt, namePrefixPrompt] ("ab".toList)
        = [contentMatchPrompt, namePrefixPrompt] ∧
      specRank ("ab".toList) contentMatchPrompt = 2 ∧
      specRank ("ab".toList) namePrefixPrompt = 0 ∧
      rankOrdered ("ab".toList)
        (filterPrompts [contentMatchPrompt, namePrefixPrompt] ("ab".toList)) = false := by
  refine ⟨by decide, by decide, by decide, by decide⟩

/-- Claim C3, amended: `filterPrompts` applies no relevance ranking; its
result is always an order-preserving sublist of the snapshot (the prompts
appear in their original snapshot order), which makes the output stable and
deterministic. -/
theorem filterPrompts_preserves_snapshot_order (prompts : List Prompt)
    (q : List Char) :
    (filterPrompts prompts q).Sublist prompts :=
  List.filter_sublist prompts

/-- Claim C4, counterexample: with `[greetingPrompt]` loaded, a reload that
fails with a ParseError leaves the prompt list empty, not the previously
loaded snapshot. -/
theorem C4_counterexample :
    loadPrompts [greetingPrompt] (Except.error PromptErr.parseError) = [] ∧
      ([] : List Prompt) ≠ [greetingPrompt] := by
  refine ⟨rfl, by decide⟩

/-- Claim C4, amended: a failed reload (ParseError or IoError) resets the
prompt list to empty — subsequent queries are served from an empty snapshot
rather than from the previous one — while a successful reload replaces the
list wholesale, so a partially-parsed mixture is never served. -/
theorem loadPrompts_failure_clears :
    (∀ (cur : List Prompt) (e : PromptErr), loadPrompts cur (Except.error e) = []) ∧
      (∀ (cur ps : List Prompt), loadPrompts cur (Except.ok ps) = ps) :=
  ⟨fun _ _ => rfl, fun _ _ => rfl⟩

/-- Claim C5: hiding the result list is idempotent — hiding twice produces
the same state as hiding once — and hiding an already-hidden list is a
no-op, not an error. -/
theorem hideList_idempotent :
    (∀ st : UIState, hideList (hideList st) = hideList st) ∧
      (∀ st : UIState, hiddenClass ∈ st.listClasses → hideList st = st) := by
  constructor
  · intro st
    simp [hideList, classListAdd_idem]
  · intro st h
    simp [hideList, classListAdd, h]

/-- Claim C5, witness: the idempotence theorem applied to a concrete state
whose list already carries the `hidden` class. -/
theorem hideList_idempotent_witness :
    hideList (hideList hiddenOnlyState) = hideList hiddenOnlyState ∧
      hideList hiddenOnlyState = hiddenOnlyState :=
  ⟨hideList_idempotent.1 hiddenOnlyState,
    hideList_idempotent.2 hiddenOnlyState (List.mem_singleton.mpr rfl)⟩

/-- Claim C6, counterexample: a click outside the app container and outside
the open settings modal, with the search bar unfocused, satisfies the
claim's trigger condition, yet the handler does not invoke
`minimize_window` (the early-return guard fires because the settings modal
is open). -/
theorem C6_counterexample :
    claimHideCond outsideBothClick = true ∧
      clickMinimizes outsideBothClick = false := by
  refine ⟨by decide, by decide⟩

/-- Claim C6, amended: `minimize_window` is invoked exactly when the app
container exists, the click target is outside it, the search field is not
focused, and it is not the case that the settings modal exists, is visible,
and the target is outside it; in particular a click outside the popup while
the settings dialog is open and the click misses the dialog does not hide
the window. -/
theorem clickMinimizes_iff_amended (e : ClickEnv) :
    clickMinimizes e = amendedHideCond e := by
  obtain ⟨a, b, c, d, m, f⟩ := e
  revert a b c d m f
  decide

/-- Claim C7: selecting a prompt from the result list writes exactly that
prompt's content to the clipboard, clears the search input, and hides the
result list (no results remain visible). -/
theorem selectPrompt_copies_and_hides (st : UIState) (p : Prompt)
    (_hp : p ∈ st.filteredPrompts) :
    (selectPrompt st p).clipboard = p.content ∧
      (selectPrompt st p).searchValue = [] ∧
      visibleResults (selectPrompt st p) = [] := by
  refine ⟨rfl, rfl, ?_⟩
  simp [selectPrompt, visibleResults, mem_classListAdd_self]

/-- Claim C7, witness: the selection theorem applied to a concrete state
whose result list contains `greetingPrompt`. -/
theorem selectPrompt_copies_and_hides_witness :
    (selectPrompt selectionState greetingPrompt).clipboard = greetingPrompt.content ∧
      (selectPrompt selectionState greetingPrompt).searchValue = [] ∧
      visibleResults (selectPrompt selectionState greetingPrompt) = [] :=
  selectPrompt_copies_and_hides selectionState greetingPrompt
    (List.mem_singleton.mpr rfl)

/-- Claim C8: on the spec's example snapshot, `filterPrompts` answers
`"hel"` with exactly `Greeting`, `"report"` with exactly `Bug Report`, and
`"xyz"` with the empty sequence. -/
theorem example_snapshot_queries :
    filterPrompts exampleSnapshot ("hel".toList) = [greetingPrompt] ∧
      filterPrompts exampleSnapshot ("report".toList) = [bugReportPrompt] ∧
      filterPrompts exampleSnapshot ("xyz".toList) = [] := by
  refine ⟨by decide, by decide, by decide⟩

/-- Claim C9: setting the hotkey to the empty string is rejected with
`InvalidBinding` (the empty binding does not parse), and the settings —
including the previously active hotkey — are returned unchanged. -/
theorem setHotkey_empty_rejected (st : Settings) :
    setHotkey st [] = (st, SetHotkeyResult.invalidBinding) := rfl

/-- Claim C10: `saveSettings` calls `set_prompt_file_path` strictly before
`set_hotkey`; if the first call rejects, the second is never issued, the
settings are unchanged and the error is re-thrown; if the second rejects,
the settings are unchanged and the error is re-thrown; only when both
succeed are both in-memory fields updated. -/
theorem saveSettings_transactional :
    (∀ (st : Settings) (p h : List Char) (e : BackendErr)
        (hr : Option BackendErr),
      saveSettings st p h (some e) hr
        = (st, some e, [BackendCall.setPromptFilePath])) ∧
    (∀ (st : Settings) (p h : List Char) (e : BackendErr),
      saveSettings st p h none (some e)
        = (st, some e, [BackendCall.setPromptFilePath, BackendCall.setHotkey])) ∧
    (∀ (st : Settings) (p h : List Char),
      saveSettings st p h none none
        = ({ promptFilePath := p, hotkey := h }, none,
            [BackendCall.setPromptFilePath, BackendCall.setHotkey])) :=
  ⟨fun _ _ _ _ _ => rfl, fun _ _ _ _ => rfl, fun _ _ _ => rfl⟩

end PromptTool
